import Mathlib

/-!
Verification development for the `relations` model engine
(src/lib/relations/model.py) and its reference in-memory backend
(src/lib/relations/unittest.py, class MockSource).

The Python code is embedded shallowly: every stateful method becomes a pure
function from the old state to the new state, fallible methods return
`Except String`, and the per-entity storage of MockSource (one counter and
one mapping per entity name) becomes an explicit `Table` value.

The external primitives of the package (relations.Field, relations.Record,
relations.Source in relations/field.py, record.py and source.py, which are
part of this repository but not under src/) are modelled from the spec where
they are needed; each such definition carries a doc comment starting with
`Modelled from the spec:`.
-/

namespace Relations

/-- Lifecycle action of a model or record: create, retrieve or update
(src/lib/relations/model.py, attribute `_action`). -/
inductive Action
  | create
  | retrieve
  | update
deriving DecidableEq, Repr

/-- Role of a model instance: top level model, parent placeholder or child
placeholder (src/lib/relations/model.py, attribute `_role`). -/
inductive Role
  | model
  | parent
  | child
deriving DecidableEq, Repr

/-- Mode of a model instance: a single record or a collection
(src/lib/relations/model.py, attribute `_mode`). -/
inductive Mode
  | one
  | many
deriving DecidableEq, Repr

/-- Kind of a field: the Python type object stored in `Field.kind`.
The membership test `field.kind in (int, str)` of `_thyself` compares type
objects, so `bool` (a subclass of int in Python) is distinct from `kint`. -/
inductive Kind
  | kbool
  | kint
  | kfloat
  | kstr
  | kdict
  | klist
deriving DecidableEq, Repr

/-- Raw field value. The claims only exercise integer and string values;
a missing value (Python None) is `Option.none` at every use site. -/
inductive Value
  | vint (i : Int)
  | vstr (s : String)
deriving DecidableEq, Repr

/-- Criterion attached to a field by `Record.filter`: either plain equality
(a bare field name) or membership (a `field__in` two part name). Values are
optional because Python compares against None with plain equality. -/
inductive Cond
  | ceq (v : Option Value)
  | cin (vs : List (Option Value))
deriving DecidableEq, Repr

/-- Modelled from the spec: the external Field primitive
(relations/field.py, not under src/): a typed value with per-field default,
read-only, replace-on-write flags and change tracking; assigning the value
marks the field changed. `store` (the storage column name) coincides with
`name` throughout this development. The extra attributes attached by the
backend (`auto_increment` in MockSource.field_init) only make the identity
field read-only, which is represented by `readonly` directly. -/
structure Field where
  name : String
  kind : Kind
  value : Option Value := none
  default : Option Value := none
  readonly : Bool := false
  changed : Bool := false
  replace : Bool := false
  criteria : List Cond := []
deriving DecidableEq, Repr

/-- Raw stored row: ordered association of storage name to value, the shape
MockSource keeps in `self.data[name]`. Python rows are dicts whose values may
be None, hence `Option Value` entries. -/
abbrev Row := List (String × Option Value)

/-- Modelled from the spec: the external Record primitive
(relations/record.py, not under src/): an ordered, name addressable
collection of fields, carrying the `_action` attribute the model engine sets
on it. -/
structure Record where
  order : List Field
  action : Action
deriving DecidableEq, Repr

/-- Lookup in a raw row; like Python `dict.get`, a missing key and a stored
None are both `none`. -/
def rowGet (row : Row) (k : String) : Option Value :=
  match row.find? (fun p => p.1 = k) with
  | some p => p.2
  | none => none

/-- Assignment into a raw row (Python `values[k] = v`): replace the existing
entry or append a new one. -/
def rowSet (row : Row) (k : String) (v : Option Value) : Row :=
  if row.any (fun p => p.1 = k) then
    row.map (fun p => if p.1 = k then (k, v) else p)
  else
    row ++ [(k, v)]

/-- Python `dict.update`: fold the assignments of `vals` into `row`. -/
def rowMerge (row : Row) (vals : Row) : Row :=
  vals.foldl (fun r p => rowSet r p.1 p.2) row

/-- Names of the fields of a record, in declared order. -/
def Record.names (r : Record) : List String :=
  r.order.map (fun f => f.name)

/-- Membership test `name in self._fields` used by the attribute hooks. -/
def Record.hasField (r : Record) (n : String) : Bool :=
  r.order.any (fun f => f.name = n)

/-- Value of the named field (Record.__getitem__ by name). A missing name
would raise in Python; the development only reads declared names. -/
def Record.getValue (r : Record) (n : String) : Option Value :=
  match r.order.find? (fun f => f.name = n) with
  | some f => f.value
  | none => none

/-- Modelled from the spec: Record.__setitem__ by name — store the value and
mark the field changed (the change tracking of the external Field
primitive). A missing name would raise in Python; the development only
writes declared names. -/
def Record.set (r : Record) (n : String) (v : Option Value) : Record :=
  { r with order := r.order.map (fun f =>
      if f.name = n then { f with value := v, changed := true } else f) }

/-- Record.filter with a bare field name: append an equality criterion to
the named field (relations/record.py, modelled from the spec, from its
predicate-matching description). -/
def Record.filterEq (r : Record) (n : String) (v : Option Value) : Record :=
  { r with order := r.order.map (fun f =>
      if f.name = n then { f with criteria := f.criteria ++ [Cond.ceq v] } else f) }

/-- Record.filter with a `field__in` two part name: append a membership
criterion to the named field (used by Model._collate). -/
def Record.filterIn (r : Record) (n : String) (vs : List (Option Value)) : Record :=
  { r with order := r.order.map (fun f =>
      if f.name = n then { f with criteria := f.criteria ++ [Cond.cin vs] } else f) }

/-- Evaluation of one criterion against a raw stored value. -/
def condHolds (c : Cond) (v : Option Value) : Bool :=
  match c with
  | Cond.ceq w => v = w
  | Cond.cin ws => ws.contains v

/-- Modelled from the spec: Field.satisfy — all the criteria of the field
hold of the raw value stored under its name. -/
def Field.satisfy (f : Field) (row : Row) : Bool :=
  f.criteria.all (fun c => condHolds c (rowGet row f.name))

/-- Modelled from the spec: Record.satisfy — the predicate matcher used by
MockSource.model_retrieve: the criteria of every field hold of the row. -/
def Record.satisfy (r : Record) (row : Row) : Bool :=
  r.order.all (fun f => f.satisfy row)

/-- Modelled from the spec: Record.write — produce the raw stored
representation, one entry per field, in declared order
(`values = creating._record.write({})` in MockSource.model_create). -/
def Record.write (r : Record) : Row :=
  r.order.map (fun f => (f.name, f.value))

/-- Modelled from the spec: Record.read — hydrate the value of each field from
the raw row (`record.read(_read)` inside Model._build); the assignment marks
the field changed, like any value assignment. -/
def Record.read (r : Record) (row : Row) : Record :=
  { r with order := r.order.map (fun f =>
      { f with value := rowGet row f.name, changed := true }) }

/-- Truthiness of a record (`if self._record` in Model._each): a Record has
a length, so it is truthy exactly when it has fields. -/
def Record.truthy (r : Record) : Bool :=
  !r.order.isEmpty

/-! ### Index normalization (ModelIdentity._thyself, model.py lines 101-153) -/

/-- Declaration forms of the UNIQUE / INDEX class attributes
(spec section 6: unset, a single name, an ordered list, an explicit
mapping). -/
inductive IndexDecl
  | unset
  | str (s : String)
  | list (l : List String)
  | dict (d : List (String × List String))
deriving DecidableEq, Repr

/-- Default unique scan of `_thyself` (model.py lines 105-113): walk the
declared fields, skip the identity field, collect fields of kind int or str,
and stop right after collecting a str field. -/
def defaultUniqueScan (fields : List Field) (id : Option String) : List String :=
  match fields with
  | [] => []
  | f :: fs =>
    if some f.name = id then
      defaultUniqueScan fs id
    else if f.kind = Kind.kstr then
      [f.name]
    else if f.kind = Kind.kint then
      f.name :: defaultUniqueScan fs id
    else
      defaultUniqueScan fs id

/-- Normalization of the UNIQUE declaration (model.py lines 103-126):
unset derives the default; an empty declaration becomes the empty mapping
(`elif not unique`); a string becomes a one element list; a list is keyed by
its fields joined with a dash; a mapping is taken as is. -/
def normalizeUnique (decl : IndexDecl) (fields : List Field) (id : Option String) :
    List (String × List String) :=
  match decl with
  | IndexDecl.unset =>
    let u := defaultUniqueScan fields id
    [(String.intercalate "-" u, u)]
  | IndexDecl.str s =>
    if s = "" then [] else [(s, [s])]
  | IndexDecl.list l =>
    if l.isEmpty then [] else [(String.intercalate "-" l, l)]
  | IndexDecl.dict d => d

/-- Normalization of the INDEX declaration (model.py lines 135-146):
`self.INDEX or {}` maps unset and every empty form to the empty mapping;
otherwise the same string, list and mapping forms as for UNIQUE. -/
def normalizeIndex (decl : IndexDecl) : List (String × List String) :=
  match decl with
  | IndexDecl.unset => []
  | IndexDecl.str s =>
    if s = "" then [] else [(s, [s])]
  | IndexDecl.list l =>
    if l.isEmpty then [] else [(String.intercalate "-" l, l)]
  | IndexDecl.dict d =>
    if d.isEmpty then [] else d

/-- Reformulation of the default unique derivation used to settle claim C6:
keep the fields of kind int or str other than the identity field, in
declared order, then truncate right after the first field of kind str.
Fields of other kinds are skipped without ending the scan. -/
def amendedDefaultUnique (fields : List Field) (id : Option String) : List String :=
  takeThroughStr ((fields.filter (fun f =>
    some f.name ≠ id ∧ (f.kind = Kind.kint ∨ f.kind = Kind.kstr))).map
      (fun f => (f.name, f.kind)))
where
  /-- take names up to and including the first str kind entry -/
  takeThroughStr : List (String × Kind) → List String
    | [] => []
    | (n, k) :: rest => if k = Kind.kstr then [n] else n :: takeThroughStr rest

/-- Scalar kinds in the sense of the index derivation: the kinds the code
ever indexes (int and str). -/
def scalarKind (k : Kind) : Bool :=
  k = Kind.kint || k = Kind.kstr

/-- Statement of claim C6 as written: the default unique index is the first
contiguous run of scalar fields in declared order (starting at the first
scalar field, ending at the first field of any other kind), up to and
including the first text field, with the identity field excluded from the
run. -/
def claimedContiguousDefault (fields : List Field) (id : Option String) : List String :=
  (runFrom (fields.dropWhile (fun f => !scalarKind f.kind))).filter (fun n => some n ≠ id)
where
  /-- contiguous scalar block truncated right after the first text field -/
  runFrom : List Field → List String
    | [] => []
    | f :: fs =>
      if f.kind = Kind.kstr then [f.name]
      else if f.kind = Kind.kint then f.name :: runFrom fs
      else []

/-! ### Entity type metadata and storage -/

/-- Relation descriptor (external relations/relation.py): the field pair
wiring a parent entity type to a child entity type, and the collection mode
of the child side (`relation.MODE`). -/
structure Relation where
  parentField : String
  childField : String
  mode : Mode
deriving DecidableEq, Repr

/-- Entity type metadata derived by ModelIdentity._thyself: name, ordered
field template (`_fields`), identity field name (`_id`), and the parent and
child relation registries (PARENTS / CHILDREN keyed by relation name). -/
structure Meta where
  name : String
  fields : List Field
  id : Option String := none
  parents : List (String × Relation) := []
  children : List (String × Relation) := []
deriving DecidableEq, Repr

/-- Per entity type storage of MockSource: the auto increment counter
`self.ids[name]` and the mapping `self.data[name]` from key to raw row.
Keys are the Values the Python dict is indexed with. -/
structure Table where
  ids : Int := 0
  data : List (Value × Row) := []
deriving DecidableEq, Repr

/-- Assignment `self.data[name][k] = row`: replace or append. -/
def dataStore (d : List (Value × Row)) (k : Value) (row : Row) : List (Value × Row) :=
  if d.any (fun kv => kv.1 = k) then
    d.map (fun kv => if kv.1 = k then (k, row) else kv)
  else
    d ++ [(k, row)]

/-- Deletion `del self.data[name][k]`; a missing key (or a None identity
value used as a key) raises KeyError in Python. -/
def dataDel (t : Table) (k : Option Value) : Except String Table :=
  match k with
  | none => Except.error "KeyError"
  | some v =>
    if t.data.any (fun kv => kv.1 = v) then
      Except.ok { t with data := t.data.filter (fun kv => kv.1 ≠ v) }
    else
      Except.error "KeyError"

/-- `self.data[name][k].update(values)`; a missing key raises KeyError. -/
def dataUpdate (t : Table) (k : Option Value) (vals : Row) : Except String Table :=
  match k with
  | none => Except.error "KeyError"
  | some v =>
    if t.data.any (fun kv => kv.1 = v) then
      Except.ok { t with data := t.data.map (fun kv =>
        if kv.1 = v then (kv.1, rowMerge kv.2 vals) else kv) }
    else
      Except.error "KeyError"

/-- Lookup in a relation cache dict (`self._parents.get(name)` and the
like): `none` when the key was never written. -/
def cacheGet {α : Type} (c : List (String × α)) (k : String) : Option α :=
  (c.find? (fun p => p.1 = k)).map (fun p => p.2)

/-- Assignment into a relation cache dict. -/
def cacheSet {α : Type} (c : List (String × α)) (k : String) (v : α) : List (String × α) :=
  if c.any (fun p => p.1 = k) then
    c.map (fun p => if p.1 = k then (k, v) else p)
  else
    c ++ [(k, v)]

/-- Update of the `_related` mapping performed by _propagate
(`if field_name in self._related: self._related[field_name] = value`): the
replace-only map is the identity when the name is absent, which is exactly
the guarded assignment. -/
def relatedSet (rel : List (String × Option Value)) (k : String) (v : Option Value) :
    List (String × Option Value) :=
  rel.map (fun p => if p.1 = k then (k, v) else p)

/-- Membership of a name in the field template (`field not in self._fields`
check of `_field_name`). -/
def fieldsHave (fields : List Field) (n : String) : Bool :=
  fields.any (fun f => f.name = n)

/-- Printable action name, for the state error messages
`cannot create during ...` etc. -/
def actionName : Action → String
  | Action.create => "create"
  | Action.retrieve => "retrieve"
  | Action.update => "update"

/-! ### Record construction (Model._build, Model._input) -/

/-- Default application step of Model._build (lines 618-621): when the field
has a default, assign it; assignment marks the field changed. Callable
defaults collapse to their value in this embedding. -/
def applyDefaults (r : Record) : Record :=
  { r with order := r.order.map (fun f =>
      match f.default with
      | some d => { f with value := some d, changed := true }
      | none => f) }

/-- Model._build (model.py lines 607-631) without the positional and named
argument application (`_input`, applied separately): deep copy the template
with the requested action, apply defaults when asked, hydrate from a raw
read row when given, then assign every inherited related value. -/
def buildRecord (meta : Meta) (action : Action) (defaults : Bool) (read : Option Row)
    (related : List (String × Option Value)) : Record :=
  let r : Record := { order := meta.fields, action := action }
  let r := if defaults then applyDefaults r else r
  let r := match read with
    | some row => r.read row
    | none => r
  related.foldl (fun r p => r.set p.1 p.2) r

/-- Positional part of Model._input (lines 596-601): walk the fields in
order, skipping read-only fields and fields named in `_related`, assigning
one positional value to each remaining field; running out of fields raises
IndexError. -/
def inputArgs (related : List (String × Option Value)) :
    List Field → List Value → Except String (List Field)
  | fields, [] => Except.ok fields
  | [], _ :: _ => Except.error "IndexError"
  | f :: fs, a :: rest =>
    if f.readonly || related.any (fun p => p.1 = f.name) then
      (fun fs2 => f :: fs2) <$> inputArgs related fs (a :: rest)
    else
      (fun fs2 => { f with value := some a, changed := true } :: fs2) <$> inputArgs related fs rest

/-- Model._input (lines 591-605): positional values then named values. -/
def input (related : List (String × Option Value)) (r : Record)
    (args : List Value) (kw : List (String × Value)) : Except String Record := do
  let fs ← inputArgs related r.order args
  Except.ok (kw.foldl (fun r2 p => r2.set p.1 (some p.2)) { r with order := fs })

/-! ### Sub-instances and relation handles

A Python Model instance may contain whole sub instances (`_models`) and
cache whole related Model instances (`_parents`, `_children`), so the object
graph is recursive with the finite depth the program builds. The embedding
stratifies it: `Model` is a top level instance, `Handle` a related instance
held in a relation cache, and `Sub` a contained sub instance. A cached
parent handle is represented by what _collate and _propagate read of it: the
current values of its parent side field (a many mode search), or `none` once
invalidated. -/

/-- Contained sub instance: a one mode, model role instance built by
`Model(_read=row)` (hydration, construction protocol 1) or by the many mode
create constructor. Its `_related` is empty and its relation caches start
empty; only the parent cache is ever written by the claims. -/
structure Sub where
  record : Record
  action : Action
  parents : List (String × Option (List (Option Value))) := []
deriving DecidableEq, Repr

/-- Cached related instance (a child handle built by `_relate`, or the
search `Child.many()`). Its own relation caches start empty and no claim
fills them, so they are not represented. -/
structure Handle where
  role : Role
  mode : Mode
  action : Action
  record : Option Record := none
  models : Option (List Sub) := none
  related : List (String × Option Value) := []
deriving DecidableEq, Repr

/-- Top level model instance (src/lib/relations/model.py, class Model).
The attributes `_limit`, `_offset`, `overflow` and `_bulk` are referenced by
MockSource but their declarations are not under src/; they are modelled from
the spec with their documented initial values (no limit requested, offset
zero, overflow false, not a bulk creation). -/
structure Model where
  role : Role := Role.model
  mode : Mode
  action : Action
  record : Option Record := none
  models : Option (List Sub) := none
  related : List (String × Option Value) := []
  parentsCache : List (String × Option (List (Option Value))) := []
  childrenCache : List (String × Option Handle) := []
  limit : Option Nat := none
  offset : Nat := 0
  overflow : Bool := false
  bulk : Bool := false
deriving DecidableEq, Repr

/-- Flattened parent cache lookup: `self._parents.get(name) is not None`
identifies a missing key with a cached None. -/
def parentCached (c : List (String × Option (List (Option Value)))) (k : String) :
    Option (List (Option Value)) :=
  (cacheGet c k).getD none

/-- Flattened child cache lookup, same shape. -/
def childCached (c : List (String × Option Handle)) (k : String) : Option Handle :=
  (cacheGet c k).getD none

/-- Hydrated sub instance `model.__class__(_read=match)` built by
model_retrieve: action update, record built with `_build("update",
_read=match)` (defaults applied, then read). -/
def mkSub (meta : Meta) (row : Row) : Sub :=
  { record := buildRecord meta Action.update true (some row) [], action := Action.update }

/-- Model.__setitem__ / __setattr__, one mode branch, on a sub instance:
assign into the record, then _propagate. Sub instances have an empty
`_related`, so the related sync is the identity; their parent cache entries
are invalidated when the written field is the foreign key of a relation. The
child relation half of _propagate (resolve the handle, push the value) is
represented at the top model level (`propagate`); the entity types whose
instances appear as sub models in this development either declare no child
relations or never reach this write with one. -/
def subSetItem (meta : Meta) (s : Sub) (name : String) (v : Option Value) : Sub :=
  { s with
    record := s.record.set name v,
    parents := meta.parents.foldl (fun acc pr =>
      if name = pr.2.childField then cacheSet acc pr.1 none else acc) s.parents }

/-! ### MockSource operations on relation handles

The handle level mirrors the same MockSource methods one level down the
stratification. A handle carries no sort or limit request (the missing
Model attributes default to none per the spec), so model_sort and
model_limit are the identity on it, and its own relation caches are empty,
so its _collate adds nothing and its create/update cascades iterate over
nothing. -/

/-- MockSource.model_retrieve (unittest.py lines 146-190) for a relation
handle against the table of the child entity type. -/
def handleRetrieve (childMeta : Meta) (childTbl : Table) (verify : Bool) (h : Handle) :
    Except String (Option Handle) := do
  let r ← match h.record with
    | some r => Except.ok r
    | none => Except.error "AttributeError"
  let hits := (childTbl.data.map (fun kv => kv.2)).filter (fun row => r.satisfy row)
  if h.mode = Mode.one ∧ hits.length > 1 then
    Except.error "more than one retrieved"
  else if h.mode = Mode.one ∧ h.role ≠ Role.child then
    match hits with
    | [] => if verify then Except.error "none retrieved" else Except.ok none
    | row :: _ =>
      Except.ok (some { h with
        record := some (buildRecord childMeta Action.update true (some row) h.related),
        action := Action.update })
  else
    Except.ok (some { h with
      models := some (hits.map (mkSub childMeta)),
      record := none,
      action := Action.update })

/-- Model._ensure (model.py lines 633-641) on a handle: a retrieve action
instance whose record is staged for update refuses access; otherwise it
retrieves (the retrieve verb, verify defaulting to True, never returns the
empty result in that configuration). -/
def handleEnsure (childMeta : Meta) (childTbl : Table) (h : Handle) : Except String Handle :=
  if h.action = Action.retrieve then
    if (h.record.map Record.action) = some Action.update then
      Except.error "need to update"
    else do
      match ← handleRetrieve childMeta childTbl true h with
      | some h2 => Except.ok h2
      | none => Except.ok h
  else
    Except.ok h

/-- Model.__len__ (model.py lines 372-387) on a handle; Python truthiness of
a handle is this length being nonzero. A child one handle with no contained
sub instance has length zero; missing collections raise TypeError in Python
(`len(None)`). -/
def handleLen (childMeta : Meta) (childTbl : Table) (h : Handle) :
    Except String (Nat × Handle) := do
  let h ← handleEnsure childMeta childTbl h
  if h.role = Role.child ∧ h.mode = Mode.one then
    match h.models with
    | some (s :: _) => Except.ok (s.record.order.length, h)
    | _ => Except.ok (0, h)
  else if h.mode = Mode.one then
    match h.record with
    | some r => Except.ok (r.order.length, h)
    | none => Except.error "TypeError"
  else
    match h.models with
    | some l => Except.ok (l.length, h)
    | none => Except.error "TypeError"

/-- Model.__setitem__ (model.py lines 444-466) on a handle with a string
key (the integer key rejection of many mode concerns positional writes,
which no claim performs on a handle). The one mode branch also performs the
own _propagate of the handle: related sync; its parent cache and child cache are
empty in this stratification. -/
def handleSetItem (childMeta : Meta) (childTbl : Table) (h : Handle) (name : String)
    (v : Option Value) : Except String Handle := do
  let h ← handleEnsure childMeta childTbl h
  if h.role = Role.child ∧ h.mode = Mode.one then
    match h.models with
    | some (s :: rest) =>
      Except.ok { h with models := some (subSetItem childMeta s name v :: rest) }
    | _ => Except.error "no record"
  else if h.mode = Mode.one then
    match h.record with
    | some r =>
      Except.ok { h with record := some (r.set name v), related := relatedSet h.related name v }
    | none => Except.error "TypeError"
  else
    match h.models with
    | some (s :: rest) =>
      Except.ok { h with models := some ((s :: rest).map (fun s2 => subSetItem childMeta s2 name v)) }
    | _ => Except.error "no records"

/-- Model.__getitem__ (model.py lines 468-489) on a handle with a string
key, as _collate consumes it: the per sub values in many mode (a mode one
handle yields its single value; _collate then treats the result as the
membership list of an `__in` criterion). -/
def handleGetVals (childMeta : Meta) (childTbl : Table) (h : Handle) (name : String) :
    Except String (List (Option Value) × Handle) := do
  let h ← handleEnsure childMeta childTbl h
  if h.role = Role.child ∧ h.mode = Mode.one then
    match h.models with
    | some (s :: _) => Except.ok ([s.record.getValue name], h)
    | _ => Except.error "no record"
  else if h.mode = Mode.one then
    match h.record with
    | some r => Except.ok ([r.getValue name], h)
    | none => Except.error "TypeError"
  else
    match h.models with
    | some l => Except.ok (l.map (fun s => s.record.getValue name), h)
    | none => Except.error "no records"

/-- MockSource.model_create (unittest.py lines 68-99) on a relation handle:
persist each contained instance in create action, assigning the next
counter value when the identity value is unset, and storing the row under
the counter value. Handles are never bulk creations, so the sub instances
are flipped to update and the handle itself ends in update action. The
inner cascade over the cached children of the handle itself iterates over nothing
in this stratification. -/
def handleCreate (childMeta : Meta) (childTbl : Table) (h : Handle) :
    Except String (Table × Handle) :=
  if (h.record.map Record.truthy) = some true ∧ h.action = Action.create then
    match h.record with
    | some r =>
      let values := r.write
      let ids2 := childTbl.ids + 1
      let assign := childMeta.id.isSome && (rowGet values (childMeta.id.getD "")).isNone
      let values2 := if assign then
          rowSet values (childMeta.id.getD "") (some (Value.vint ids2)) else values
      -- `creating[model._id] = self.ids[...]` goes through __setitem__: the
      -- record assignment plus _propagate (related sync on the handle)
      let r2 := if assign then r.set (childMeta.id.getD "") (some (Value.vint ids2)) else r
      let rel2 := if assign then
          relatedSet h.related (childMeta.id.getD "") (some (Value.vint ids2)) else h.related
      let tbl2 : Table := { ids := ids2, data := dataStore childTbl.data (Value.vint ids2) values2 }
      Except.ok (tbl2, { h with
        record := some { r2 with action := Action.update },
        related := rel2,
        action := Action.update })
    | none => Except.ok (childTbl, { h with action := Action.update })
  else
    match h.models with
    | some subs =>
      let step := fun (acc : Table × List Sub) (s : Sub) =>
        if s.action = Action.create then
          let values := s.record.write
          let ids2 := acc.1.ids + 1
          let assign := childMeta.id.isSome && (rowGet values (childMeta.id.getD "")).isNone
          let values2 := if assign then
              rowSet values (childMeta.id.getD "") (some (Value.vint ids2)) else values
          let s2 := if assign then
              subSetItem childMeta s (childMeta.id.getD "") (some (Value.vint ids2)) else s
          let s3 := { s2 with action := Action.update,
                              record := { s2.record with action := Action.update } }
          ({ ids := ids2, data := dataStore acc.1.data (Value.vint ids2) values2 }, acc.2 ++ [s3])
        else
          (acc.1, acc.2 ++ [s])
      let (tbl2, subs2) := subs.foldl step (childTbl, [])
      Except.ok (tbl2, { h with models := some subs2, action := Action.update })
    | none => Except.ok (childTbl, { h with action := Action.update })

/-- Model.create verb (model.py lines 752-760) on a handle: the state check
rejects only the retrieve action, then delegates to the source. -/
def handleCreateVerb (childMeta : Meta) (childTbl : Table) (h : Handle) :
    Except String (Table × Handle) :=
  if ¬ (h.action = Action.create ∨ h.action = Action.update) then
    Except.error ("cannot create during " ++ actionName h.action)
  else
    handleCreate childMeta childTbl h

/-! ### Field diffing (MockSource.field_update, Source.record_update) -/

/-- MockSource.field_update (unittest.py lines 192-202): skip read-only
fields; re-apply the default of an untouched replace field (the assignment
marks it changed); write the value when no changed filter was requested or
the changed flag matches it, clearing the flag. -/
def field_update (f : Field) (values : Row) (changed : Option Bool) : Field × Row :=
  if f.readonly then
    (f, values)
  else
    let f := if f.replace && !f.changed then { f with value := f.default, changed := true } else f
    match changed with
    | none => ({ f with changed := false }, rowSet values f.name f.value)
    | some b =>
      if f.changed = b then
        ({ f with changed := false }, rowSet values f.name f.value)
      else
        (f, values)

/-- Modelled from the spec: record_update of the Source contract
(relations/source.py, not under src/) folds field_update over the fields of
the record, collecting the value set to write. Per the lifecycle in the
spec (a deferred write staged on a retrieve is flushed by the update call,
after which the instance returns to retrieve), collecting the changed field
set (changed = True) of a record staged for update clears its staged update
intent. -/
def record_update (r : Record) (changed : Option Bool) : Record × Row :=
  let folded := r.order.foldl (fun (acc : List Field × Row) f =>
    let fr := field_update f acc.2 changed
    (acc.1 ++ [fr.1], fr.2)) ([], [])
  let action2 := if changed = some Bool.true ∧ r.action = Action.update then
      Action.retrieve
    else
      r.action
  ({ order := folded.1, action := action2 }, folded.2)

/-- MockSource.model_update (unittest.py lines 204-242) on a relation
handle. The cascade over the cached children of the handle itself iterates over
nothing in this stratification. -/
def handleUpdate (childMeta : Meta) (childTbl : Table) (h : Handle) :
    Except String (Table × Handle × Nat) :=
  if h.action = Action.retrieve ∧ (h.record.map Record.action) = some Action.update then
    match h.record with
    | some r =>
      let ru := record_update r (some Bool.true)
      let cnt := (childTbl.data.filter (fun kv => ru.1.satisfy kv.2)).length
      let data2 := childTbl.data.map (fun kv =>
        if ru.1.satisfy kv.2 then (kv.1, rowMerge kv.2 ru.2) else kv)
      Except.ok ({ childTbl with data := data2 }, { h with record := some ru.1 }, cnt)
    | none => Except.error "AttributeError"
  else if childMeta.id.isSome then
    if (h.record.map Record.truthy) = some true ∧ h.action = Action.update then
      match h.record with
      | some r => do
        let ru := record_update r none
        let tbl2 ← dataUpdate childTbl (ru.1.getValue (childMeta.id.getD "")) ru.2
        Except.ok (tbl2, { h with record := some ru.1 }, 1)
      | none => Except.error "AttributeError"
    else
      match h.models with
      | some subs => do
        let res ← subs.foldlM (fun (acc : Table × List Sub × Nat) s =>
          if s.action = Action.update then do
            let ru := record_update s.record none
            let tbl2 ← dataUpdate acc.1 (ru.1.getValue (childMeta.id.getD "")) ru.2
            Except.ok (tbl2, acc.2.1 ++ [{ s with record := ru.1 }], acc.2.2 + 1)
          else
            Except.ok (acc.1, acc.2.1 ++ [s], acc.2.2)) (childTbl, ([], 0))
        Except.ok (res.1, { h with models := some res.2.1 }, res.2.2)
      | none => Except.ok (childTbl, h, 0)
  else
    Except.error "nothing to update from"

/-- Model.update verb (model.py lines 772-780) on a handle: rejected only
during create, then delegates to the source. -/
def handleUpdateVerb (childMeta : Meta) (childTbl : Table) (h : Handle) :
    Except String (Table × Handle × Nat) :=
  if ¬ (h.action = Action.update ∨ h.action = Action.retrieve) then
    Except.error ("cannot update during " ++ actionName h.action)
  else
    handleUpdate childMeta childTbl h

/-! ### Model level operations -/

/-- Selection of Model._each (model.py lines 643-654) for the model itself:
the instance stands for itself when its record is truthy and the action
filter passes. -/
def eachSelf (m : Model) (act : Option Action) : Bool :=
  (match m.record with
    | some r => r.truthy
    | none => false) &&
  (match act with
    | none => true
    | some a => a == m.action)

/-- Model.filter (model.py lines 656-678) restricted to keyword filters
naming declared fields, as every claim uses it: the inherited related
values and then the keyword pairs become equality criteria on the record.
Positional filters and the relation recursion of two part names are outside
every claim; for a declared field name `_relate` returns None and the
record filter applies. -/
def filterKW (m : Model) (kw : List (String × Option Value)) : Model :=
  { m with record := m.record.map (fun r =>
      kw.foldl (fun r2 p => r2.filterEq p.1 p.2)
        (m.related.foldl (fun r2 p => r2.filterEq p.1 p.2) r)) }

/-- Model.one (model.py lines 680-686): a retrieve action, one mode search,
with the criteria record built without defaults and the keyword filters
applied. -/
def Model.one (meta : Meta) (kw : List (String × Option Value)) : Model :=
  filterKW
    { mode := Mode.one, action := Action.retrieve,
      record := some (buildRecord meta Action.retrieve false none []) } kw

/-- Model.many (model.py lines 688-694): the many mode search. -/
def Model.many (meta : Meta) (kw : List (String × Option Value)) : Model :=
  filterKW
    { mode := Mode.many, action := Action.retrieve,
      record := some (buildRecord meta Action.retrieve false none []) } kw

/-- Model construction in the plain create entry mode, one mode (model.py
lines 288-304): the record is built with defaults, inherited related
values, then positional and named inputs. -/
def initCreateOne (meta : Meta) (related : List (String × Option Value))
    (args : List Value) (kw : List (String × Value)) : Except String Model := do
  let r ← input related (buildRecord meta Action.create true none related) args kw
  Except.ok { mode := Mode.one, action := Action.create, record := some r, related := related }

/-- Modelled from the spec: the limit request recorded by the Model limit
method, which is not under src/ — MockSource.model_limit consumes
`model._limit` and `model._offset`. -/
def setLimit (m : Model) (n : Nat) : Model :=
  { m with limit := some n }

/-- Model._relate (model.py lines 527-558), child half: return the cached
handle, or build and cache one — the plain many search when the owner is
itself retrieving, else the child placeholder seeded from the current
parent field value of the owner (construction protocol 3: retrieve action with
the foreign key filter when the value is concrete, else create action). -/
def relateChild (childMeta : Meta) (m : Model) (pc : String) (rel : Relation) :
    Handle × Model :=
  match childCached m.childrenCache pc with
  | some h => (h, m)
  | none =>
    let h : Handle :=
      if m.action = Action.retrieve then
        { role := Role.model, mode := Mode.many, action := Action.retrieve,
          record := some (buildRecord childMeta Action.retrieve false none []) }
      else
        let v := (m.record.map (fun r => r.getValue rel.parentField)).getD none
        let related := [(rel.childField, v)]
        if v.isSome then
          { role := Role.child, mode := rel.mode, action := Action.retrieve,
            record := some (Record.filterEq
              (buildRecord childMeta Action.retrieve false none related) rel.childField v),
            related := related }
        else
          { role := Role.child, mode := rel.mode, action := Action.create, related := related }
    (h, { m with childrenCache := cacheSet m.childrenCache pc (some h) })

/-- Model._propagate (model.py lines 573-589): sync the inherited related
snapshot; drop every cached parent handle whose foreign key is the written
field; for every child relation whose parent side key is the written field,
resolve the handle through _relate (which builds and caches one when none
is cached), and, when the resolved handle is truthy, push the value into
its copy of the foreign key. The truthiness test and the push mutate the
cached handle in place. -/
def propagate (meta childMeta : Meta) (childTbl : Table) (m : Model) (name : String)
    (v : Option Value) : Except String Model := do
  if ¬ fieldsHave meta.fields name then
    Except.error ("cannot find field " ++ name ++ " in " ++ meta.name)
  else
    let m := { m with related := relatedSet m.related name v }
    let m := meta.parents.foldl (fun m2 pr =>
      if name = pr.2.childField then
        { m2 with parentsCache := cacheSet m2.parentsCache pr.1 none }
      else m2) m
    meta.children.foldlM (fun m2 pr => do
      if name = pr.2.parentField then do
        let hm := relateChild childMeta m2 pr.1 pr.2
        let nh ← handleLen childMeta childTbl hm.1
        let m4 := { hm.2 with childrenCache := cacheSet hm.2.childrenCache pr.1 (some nh.2) }
        if nh.1 ≠ 0 then do
          let h2 ← handleSetItem childMeta childTbl nh.2 pr.2.childField v
          Except.ok { m4 with childrenCache := cacheSet m4.childrenCache pr.1 (some h2) }
        else
          Except.ok m4
      else
        Except.ok m2) m

/-- Model._collate (model.py lines 560-571): for each resolved parent
handle, constrain the local foreign key to the current parent
field values of the handle; symmetrically for each resolved child handle (whose getitem
hydrates it in place). -/
def collate (meta childMeta : Meta) (childTbl : Table) (m : Model) : Except String Model := do
  let m := meta.parents.foldl (fun m2 pr =>
    match parentCached m2.parentsCache pr.1 with
    | some vals =>
      { m2 with record := m2.record.map (fun r => r.filterIn pr.2.childField vals) }
    | none => m2) m
  meta.children.foldlM (fun m2 pr => do
    match childCached m2.childrenCache pr.1 with
    | some h => do
      let vh ← handleGetVals childMeta childTbl h pr.2.childField
      Except.ok { m2 with
        record := m2.record.map (fun r => r.filterIn pr.2.parentField vh.1),
        childrenCache := cacheSet m2.childrenCache pr.1 (some vh.2) }
    | none => Except.ok m2) m

/-- MockSource.model_sort (unittest.py lines 123-132): the sort request and
the declared default order are Model attributes not under src/; no claim
requests a sort and no entity type of this development declares an order,
so `model._sort or model._order` is empty and the method leaves the
collection unchanged. -/
def model_sort (m : Model) : Model :=
  m

/-- MockSource.model_limit (unittest.py lines 134-144): without a limit
request, do nothing; otherwise slice the collection from offset to offset
plus limit and flag overflow when the sliced length reaches the limit. A
missing collection would raise TypeError in Python; model_retrieve always
sets the collection before limiting. -/
def model_limit (m : Model) : Model :=
  match m.limit with
  | none => m
  | some lim =>
    match m.models with
    | some l =>
      let sliced := (l.drop m.offset).take lim
      { m with models := some sliced, overflow := m.overflow || decide (lim ≤ sliced.length) }
    | none => m

/-- MockSource.model_retrieve (unittest.py lines 146-190): collate, match
every stored row against the record predicate (no like search is staged in
this development: `model._like` is an attribute not under src/ and no claim
requests one), enforce the one mode cardinality, then hydrate the single
record or build one sub instance per match, and sort and limit a many mode
result. Returning `none` is the Python `return None` of the unverified
empty one mode retrieve. -/
def model_retrieve (meta childMeta : Meta) (tbl childTbl : Table) (m : Model)
    (verify : Bool) : Except String (Option Model) := do
  let m ← collate meta childMeta childTbl m
  let r ← match m.record with
    | some r => Except.ok r
    | none => Except.error "AttributeError"
  let hits := (tbl.data.map (fun kv => kv.2)).filter (fun row => r.satisfy row)
  if m.mode = Mode.one ∧ hits.length > 1 then
    Except.error "more than one retrieved"
  else if m.mode = Mode.one ∧ m.role ≠ Role.child then
    match hits with
    | [] => if verify then Except.error "none retrieved" else Except.ok none
    | row :: _ =>
      Except.ok (some { m with
        record := some (buildRecord meta Action.update true (some row) m.related),
        action := Action.update })
  else
    let m2 := { m with models := some (hits.map (mkSub meta)), record := none,
                       action := Action.update }
    Except.ok (some (if m.mode = Mode.many then model_limit (model_sort m2) else m2))

/-- Model.retrieve verb (model.py lines 762-770): only a retrieve action
instance may retrieve; then delegate to the source. -/
def retrieveVerb (meta childMeta : Meta) (tbl childTbl : Table) (m : Model)
    (verify : Bool) : Except String (Option Model) :=
  if m.action ≠ Action.retrieve then
    Except.error ("cannot retrieve during " ++ actionName m.action)
  else
    model_retrieve meta childMeta tbl childTbl m verify

/-- Model._ensure (model.py lines 633-641): a retrieve action instance
whose record is staged for update refuses access with `need to update`;
otherwise it retrieves itself (the verb, verify defaulting to True, which
never returns the empty result). -/
def ensure (meta childMeta : Meta) (tbl childTbl : Table) (m : Model) :
    Except String Model :=
  if m.action = Action.retrieve then
    if (m.record.map Record.action) = some Action.update then
      Except.error "need to update"
    else do
      match ← retrieveVerb meta childMeta tbl childTbl m true with
      | some m2 => Except.ok m2
      | none => Except.ok m
  else
    Except.ok m

/-- Model.__setattr__, field branch (model.py lines 306-332), which for a
string key coincides with Model.__setitem__ (lines 444-466, whose extra
integer key rejection concerns positional writes only): ensure, then
delegate by role and mode — through the single contained sub instance for
a child one, directly into the record plus _propagate for one mode, or
broadcast across the collection for many mode. -/
def setattrField (meta childMeta : Meta) (tbl childTbl : Table) (m : Model)
    (name : String) (v : Option Value) : Except String Model := do
  let m ← ensure meta childMeta tbl childTbl m
  if m.role = Role.child ∧ m.mode = Mode.one then
    match m.models with
    | some (s :: rest) =>
      Except.ok { m with models := some (subSetItem meta s name v :: rest) }
    | _ => Except.error "no record"
  else if m.mode = Mode.one then
    match m.record with
    | some r => propagate meta childMeta childTbl { m with record := some (r.set name v) } name v
    | none => Except.error "TypeError"
  else
    match m.models with
    | some (s :: rest) =>
      Except.ok { m with models := some ((s :: rest).map (fun s2 => subSetItem meta s2 name v)) }
    | _ => Except.error "no records"

/-- Model.set (model.py lines 696-711): a one mode retrieve first resolves
itself (hydrating and flipping to update); a many mode retrieve stages the
write by marking its criteria record with update intent; then the inputs
are applied to the record of every instance _each selects. -/
def setVerb (meta childMeta : Meta) (tbl childTbl : Table) (m : Model)
    (args : List Value) (kw : List (String × Value)) : Except String Model := do
  let m ← if m.action = Action.retrieve then
      if m.mode = Mode.one then do
        match ← retrieveVerb meta childMeta tbl childTbl m true with
        | some m2 => Except.ok m2
        | none => Except.ok m
      else
        Except.ok { m with record := m.record.map (fun r => { r with action := Action.update }) }
    else
      Except.ok m
  if eachSelf m none then
    match m.record with
    | some r => do
      let r2 ← input m.related r args kw
      Except.ok { m with record := some r2 }
    | none => Except.ok m
  else
    match m.models with
    | some subs => do
      let subs2 ← subs.mapM (fun s => do
        let r2 ← input m.related s.record args kw
        Except.ok { s with record := r2 })
      Except.ok { m with models := some subs2 }
    | none => Except.ok m

/-- Cascade of MockSource.model_create (unittest.py lines 87-89): for every
cached child handle of the creating instance that is truthy, create it. -/
def cascadeCreate (meta childMeta : Meta) (childTbl : Table) (m : Model) :
    Except String (Table × Model) :=
  meta.children.foldlM (fun (acc : Table × Model) pr => do
    match childCached acc.2.childrenCache pr.1 with
    | some h => do
      let nh ← handleLen childMeta acc.1 h
      let m2 := { acc.2 with childrenCache := cacheSet acc.2.childrenCache pr.1 (some nh.2) }
      if nh.1 ≠ 0 then do
        let th ← handleCreateVerb childMeta acc.1 nh.2
        Except.ok (th.1, { m2 with childrenCache := cacheSet m2.childrenCache pr.1 (some th.2) })
      else
        Except.ok (acc.1, m2)
    | none => Except.ok acc) (childTbl, m)

/-- MockSource.model_create (unittest.py lines 68-99): persist every
instance _each selects in create action — write the raw record, advance the
counter, assign the counter as identity value when the identity is unset
(through __setitem__, hence _propagate), and store the row under the
counter value; unless bulk, cascade the cached children and flip to update;
a bulk creation releases the collection instead. -/
def model_create (meta childMeta : Meta) (tbl childTbl : Table) (m : Model) :
    Except String (Table × Table × Model) := do
  if eachSelf m (some Action.create) then
    match m.record with
    | some r => do
      let values := r.write
      let ids2 := tbl.ids + 1
      let assign := meta.id.isSome && (rowGet values (meta.id.getD "")).isNone
      let values2 := if assign then
          rowSet values (meta.id.getD "") (some (Value.vint ids2)) else values
      let m2 ← if assign then
          setattrField meta childMeta tbl childTbl m (meta.id.getD "") (some (Value.vint ids2))
        else
          Except.ok m
      let tbl2 : Table := { ids := ids2, data := dataStore tbl.data (Value.vint ids2) values2 }
      if m.bulk then
        Except.ok (tbl2, childTbl, { m2 with models := some [] })
      else do
        let cm ← cascadeCreate meta childMeta childTbl m2
        let m4 := { cm.2 with action := Action.update,
                              record := cm.2.record.map (fun rr => { rr with action := Action.update }) }
        Except.ok (tbl2, cm.1, m4)
    | none => Except.error "AttributeError"
  else
    match m.models with
    | some subs =>
      let step := fun (acc : Table × List Sub) (s : Sub) =>
        if s.action = Action.create then
          let values := s.record.write
          let ids2 := acc.1.ids + 1
          let assign := meta.id.isSome && (rowGet values (meta.id.getD "")).isNone
          let values2 := if assign then
              rowSet values (meta.id.getD "") (some (Value.vint ids2)) else values
          let s2 := if assign then
              subSetItem meta s (meta.id.getD "") (some (Value.vint ids2)) else s
          let s3 := if m.bulk then s2 else
              { s2 with action := Action.update,
                        record := { s2.record with action := Action.update } }
          (({ ids := ids2, data := dataStore acc.1.data (Value.vint ids2) values2 } : Table),
            acc.2 ++ [s3])
        else
          (acc.1, acc.2 ++ [s])
      let res := subs.foldl step (tbl, [])
      if m.bulk then
        Except.ok (res.1, childTbl, { m with models := some [] })
      else
        Except.ok (res.1, childTbl, { m with models := some res.2, action := Action.update })
    | none =>
      if m.bulk then
        Except.ok (tbl, childTbl, { m with models := some [] })
      else
        Except.ok (tbl, childTbl, { m with action := Action.update })

/-- Model.create verb (model.py lines 752-760): the state check rejects
only the retrieve action (create is legal both before and after
persistence), then delegates to the source. -/
def createVerb (meta childMeta : Meta) (tbl childTbl : Table) (m : Model) :
    Except String (Table × Table × Model) :=
  if ¬ (m.action = Action.create ∨ m.action = Action.update) then
    Except.error ("cannot create during " ++ actionName m.action)
  else
    model_create meta childMeta tbl childTbl m

/-- Cascade of MockSource.model_update (unittest.py lines 234-236): every
truthy cached child handle is created then updated. -/
def cascadeUpdate (meta childMeta : Meta) (childTbl : Table) (m : Model) :
    Except String (Table × Model) :=
  meta.children.foldlM (fun (acc : Table × Model) pr => do
    match childCached acc.2.childrenCache pr.1 with
    | some h => do
      let nh ← handleLen childMeta acc.1 h
      let m2 := { acc.2 with childrenCache := cacheSet acc.2.childrenCache pr.1 (some nh.2) }
      if nh.1 ≠ 0 then do
        let th ← handleCreateVerb childMeta acc.1 nh.2
        let uh ← handleUpdateVerb childMeta th.1 th.2
        Except.ok (uh.1, { m2 with childrenCache := cacheSet m2.childrenCache pr.1 (some uh.2.1) })
      else
        Except.ok (acc.1, m2)
    | none => Except.ok acc) (childTbl, m)

/-- MockSource.model_update (unittest.py lines 204-242): a retrieve action
instance with a record staged for update collects the changed field set
once and folds it into every stored row the record predicate matches;
otherwise, with an identity field, each instance _each selects in update
action writes its value set to the row addressed by its identity value and
cascades its children; with neither, the update cannot be addressed. -/
def model_update (meta childMeta : Meta) (tbl childTbl : Table) (m : Model) :
    Except String (Table × Table × Model × Nat) := do
  if m.action = Action.retrieve ∧ (m.record.map Record.action) = some Action.update then
    match m.record with
    | some r =>
      let ru := record_update r (some Bool.true)
      let cnt := (tbl.data.filter (fun kv => ru.1.satisfy kv.2)).length
      let data2 := tbl.data.map (fun kv =>
        if ru.1.satisfy kv.2 then (kv.1, rowMerge kv.2 ru.2) else kv)
      Except.ok ({ tbl with data := data2 }, childTbl, { m with record := some ru.1 }, cnt)
    | none => Except.error "AttributeError"
  else if meta.id.isSome then
    if eachSelf m (some Action.update) then
      match m.record with
      | some r => do
        let ru := record_update r none
        let tbl2 ← dataUpdate tbl (ru.1.getValue (meta.id.getD "")) ru.2
        let cm ← cascadeUpdate meta childMeta childTbl { m with record := some ru.1 }
        Except.ok (tbl2, cm.1, cm.2, 1)
      | none => Except.error "AttributeError"
    else
      match m.models with
      | some subs => do
        let res ← subs.foldlM (fun (acc : Table × List Sub × Nat) s =>
          if s.action = Action.update then do
            let ru := record_update s.record none
            let tbl2 ← dataUpdate acc.1 (ru.1.getValue (meta.id.getD "")) ru.2
            Except.ok (tbl2, acc.2.1 ++ [{ s with record := ru.1 }], acc.2.2 + 1)
          else
            Except.ok (acc.1, acc.2.1 ++ [s], acc.2.2)) (tbl, ([], 0))
        Except.ok (res.1, childTbl, { m with models := some res.2.1 }, res.2.2)
      | none => Except.ok (tbl, childTbl, m, 0)
  else
    Except.error "nothing to update from"

/-- Model.update verb (model.py lines 772-780): rejected only during
create, then delegates to the source. -/
def updateVerb (meta childMeta : Meta) (tbl childTbl : Table) (m : Model) :
    Except String (Table × Table × Model × Nat) :=
  if ¬ (m.action = Action.update ∨ m.action = Action.retrieve) then
    Except.error ("cannot update during " ++ actionName m.action)
  else
    model_update meta childMeta tbl childTbl m

/-- MockSource.model_delete (unittest.py lines 244-272): a retrieve action
instance deletes every stored row its record predicate matches, addressed
by storage key, and is itself left untouched; otherwise, with an identity
field, each instance _each selects is deleted by its identity value and
flipped back to create, and the owning instance is flipped back to create;
with neither, the delete cannot be addressed. -/
def model_delete (meta : Meta) (tbl : Table) (m : Model) :
    Except String (Table × Model × Nat) := do
  if m.action = Action.retrieve then
    match m.record with
    | some r => do
      let ks := (tbl.data.filter (fun kv => r.satisfy kv.2)).map (fun kv => kv.1)
      let tbl2 ← ks.foldlM (fun t k => dataDel t (some k)) tbl
      Except.ok (tbl2, m, ks.length)
    | none => Except.error "AttributeError"
  else if meta.id.isSome then
    if eachSelf m none then
      match m.record with
      | some r => do
        let tbl2 ← dataDel tbl (r.getValue (meta.id.getD ""))
        Except.ok (tbl2, { m with action := Action.create }, 1)
      | none => Except.ok (tbl, { m with action := Action.create }, 0)
    else
      match m.models with
      | some subs => do
        let ids := subs.map (fun s => s.record.getValue (meta.id.getD ""))
        let subs2 := subs.map (fun s => { s with action := Action.create })
        let tbl2 ← ids.foldlM (fun t k => dataDel t k) tbl
        Except.ok (tbl2, { m with models := some subs2, action := Action.create }, ids.length)
      | none => Except.ok (tbl, { m with action := Action.create }, 0)
  else
    Except.error "nothing to delete from"

/-- Model.delete verb (model.py lines 782-793): rejected only during
create; a one mode retrieve first resolves itself (hydrating and flipping
to update), then the source delete runs. -/
def deleteVerb (meta childMeta : Meta) (tbl childTbl : Table) (m : Model) :
    Except String (Table × Model × Nat) := do
  if ¬ (m.action = Action.update ∨ m.action = Action.retrieve) then
    Except.error ("cannot delete during " ++ actionName m.action)
  else do
    let m ← if m.action = Action.retrieve ∧ m.mode = Mode.one then do
        match ← retrieveVerb meta childMeta tbl childTbl m true with
        | some m2 => Except.ok m2
        | none => Except.ok m
      else
        Except.ok m
    model_delete meta tbl m

/-! ### Concrete entity types used by the claims

`unitMeta` is a plain entity type (no relations): an auto increment integer
identity (made read-only by MockSource.model_init), a text name and an
integer size with a declared default. `unitMeta5` and `testMeta5` form the
parent and child of a one-to-many relation, as in the claims about
propagation. -/

/-- Simple entity type: id (identity, auto increment hence read-only),
name (str), size (int, default 7). -/
def unitMeta : Meta :=
  { name := "unit",
    fields :=
      [ { name := "id", kind := Kind.kint, readonly := true },
        { name := "name", kind := Kind.kstr },
        { name := "size", kind := Kind.kint, default := some (Value.vint 7) } ],
    id := some "id" }

/-- The one-to-many relation between `unitMeta5` and `testMeta5`:
parent field id, child foreign key unit_id, many mode child collection. -/
def rel5 : Relation :=
  { parentField := "id", childField := "unit_id", mode := Mode.many }

/-- Parent entity type of the relation claims. -/
def unitMeta5 : Meta :=
  { name := "unit5",
    fields :=
      [ { name := "id", kind := Kind.kint, readonly := true },
        { name := "name", kind := Kind.kstr } ],
    id := some "id",
    children := [("tests", rel5)] }

/-- Child entity type of the relation claims. -/
def testMeta5 : Meta :=
  { name := "test5",
    fields :=
      [ { name := "id", kind := Kind.kint, readonly := true },
        { name := "unit_id", kind := Kind.kint },
        { name := "name", kind := Kind.kstr } ],
    id := some "id",
    parents := [("unit", rel5)] }

/-- Conformance scenario for the round-trip claim: build a unit entity from
named field values, persist it with the create verb, then retrieve it by
the identity value the counter is about to assign. -/
def createThenRetrieveById (tbl : Table) (kw : List (String × Value)) :
    Except String (Option Model) := do
  let m0 ← initCreateOne unitMeta [] [] kw
  let res ← createVerb unitMeta unitMeta tbl tbl m0
  retrieveVerb unitMeta unitMeta res.1 res.1
    (Model.one unitMeta [("id", some (Value.vint (tbl.ids + 1)))]) true

/-- Field template used to separate the default unique derivation of the
code
from the claimed contiguous run: an int identity, an int field, a dict
field breaking contiguity, then a str field. -/
def fields6 : List Field :=
  [ { name := "id", kind := Kind.kint },
    { name := "a", kind := Kind.kint },
    { name := "b", kind := Kind.kdict },
    { name := "c", kind := Kind.kstr } ]

/-- Empty storage table. -/
def tblE : Table :=
  { ids := 0, data := [] }

/-- Storage holding one unit row (id 1, name x, size 3) under key 1. -/
def row1 : Row :=
  [("id", some (Value.vint 1)), ("name", some (Value.vstr "x")), ("size", some (Value.vint 3))]

/-- Table with the single row `row1` and counter 1. -/
def tbl1 : Table :=
  { ids := 1, data := [(Value.vint 1, row1)] }

/-- Storage holding ten unit rows (ids 1 to 10), all with name x. -/
def tbl10 : Table :=
  { ids := 10,
    data := (List.range 10).map (fun i =>
      (Value.vint (i + 1),
        [("id", some (Value.vint (i + 1))), ("name", some (Value.vstr "x")),
         ("size", some (Value.vint 0))])) }

/-- Child table for the propagation counterexample: one test row whose
foreign key unit_id is 2. -/
def ct0 : Table :=
  { ids := 1,
    data := [(Value.vint 1,
      [("id", some (Value.vint 1)), ("unit_id", some (Value.vint 2)),
       ("name", some (Value.vstr "t"))])] }

/-- Persisted unit5 instance (action update) with id 1 and no cached
relation handles, about to have its id reassigned. -/
def m50 : Model :=
  { mode := Mode.one, action := Action.update,
    record := some
      { order :=
          [ { name := "id", kind := Kind.kint, readonly := true,
              value := some (Value.vint 1) },
            { name := "name", kind := Kind.kstr, value := some (Value.vstr "u") } ],
        action := Action.update } }

/-- Persisted unit instance (action update) with identity value one, used
by the C2 witness. -/
def mUpd1 : Model :=
  { mode := Mode.one, action := Action.update,
    record := some
      { order := [ { name := "id", kind := Kind.kint, value := some (Value.vint 1) } ],
        action := Action.update } }

/-- Staged many mode retrieve of units filtered by size, after set(name=s):
the criteria record carries the size filter and the staged name value, and
is marked with update intent. -/
def c1Staged (k : Int) (s : String) : Model :=
  { role := Role.model, mode := Mode.many, action := Action.retrieve,
    record := some
      { order :=
          [ { name := "id", kind := Kind.kint, readonly := true },
            { name := "name", kind := Kind.kstr, value := some (Value.vstr s), changed := true },
            { name := "size", kind := Kind.kint, default := some (Value.vint 7),
              criteria := [Cond.ceq (some (Value.vint k))] } ],
        action := Action.update } }

/-- The same instance after the deferred update flushed: the staged change
flag is cleared and the record returns to retrieve intent. -/
def c1Flushed (k : Int) (s : String) : Model :=
  { role := Role.model, mode := Mode.many, action := Action.retrieve,
    record := some
      { order :=
          [ { name := "id", kind := Kind.kint, readonly := true },
            { name := "name", kind := Kind.kstr, value := some (Value.vstr s), changed := false },
            { name := "size", kind := Kind.kint, default := some (Value.vint 7),
              criteria := [Cond.ceq (some (Value.vint k))] } ],
        action := Action.retrieve } }

/-! ### Helper lemmas -/

theorem intercalate_singleton (s : String) : String.intercalate "-" [s] = s := by
  simp [String.intercalate, List.intersperse]
  rfl

theorem defaultUniqueScan_eq_amended (id : Option String) :
    ∀ fields, defaultUniqueScan fields id = amendedDefaultUnique fields id := by
  intro fields
  induction fields with
  | nil => rfl
  | cons f fs ih =>
    unfold defaultUniqueScan amendedDefaultUnique
    unfold amendedDefaultUnique at ih
    by_cases h1 : some f.name = id
    · simp [h1, ih]
    · by_cases h2 : f.kind = Kind.kstr
      · have h3 : f.kind ≠ Kind.kint := by
          rw [h2]
          intro hc
          cases hc
        simp [h1, h2, h3, amendedDefaultUnique.takeThroughStr]
      · by_cases h3 : f.kind = Kind.kint
        · simp [h1, h2, h3, ih, amendedDefaultUnique.takeThroughStr]
        · simp [h1, h2, h3, ih]

theorem model_limit_action (m : Model) : (model_limit m).action = m.action := by
  cases h1 : m.limit with
  | none => simp [model_limit, h1]
  | some lim =>
    cases h2 : m.models with
    | none => simp [model_limit, h1, h2]
    | some l => simp [model_limit, h1, h2]

/-! ### Claim C3 -/

/-- Claim C3, counterexample: calling create() on an instance that is
already persisted (action update, here obtained by actually creating a
fresh unit) is NOT rejected — the verb accepts the update action and
delegates, succeeding. The claimed state error never occurs. -/
theorem c3_counterexample :
    ((do
      let m0 ← initCreateOne unitMeta [] [] [("name", Value.vstr "x")]
      let r ← createVerb unitMeta unitMeta tblE tblE m0
      Except.ok (r.2.2.action,
        (createVerb unitMeta unitMeta r.1 r.1 r.2.2).isOk)) :
      Except String (Action × Bool)) = Except.ok (Action.update, true) := by
  rfl

/-- Claim C3 as amended: each lifecycle verb validates the current action
before delegating to the source — retrieve() is rejected unless the action
is retrieve, update() and delete() are rejected during create, and create()
is rejected only during retrieve; in particular create() during update
(already persisted) passes validation and delegates. -/
theorem c3_amended (meta childMeta : Meta) (tbl childTbl : Table) (m : Model) :
    (m.action = Action.retrieve →
      createVerb meta childMeta tbl childTbl m =
        Except.error "cannot create during retrieve") ∧
    (m.action ≠ Action.retrieve →
      createVerb meta childMeta tbl childTbl m =
        model_create meta childMeta tbl childTbl m) ∧
    (m.action ≠ Action.retrieve →
      retrieveVerb meta childMeta tbl childTbl m true =
        Except.error ("cannot retrieve during " ++ actionName m.action)) ∧
    (m.action = Action.retrieve →
      retrieveVerb meta childMeta tbl childTbl m true =
        model_retrieve meta childMeta tbl childTbl m true) ∧
    (m.action = Action.create →
      updateVerb meta childMeta tbl childTbl m =
        Except.error "cannot update during create") ∧
    (m.action ≠ Action.create →
      updateVerb meta childMeta tbl childTbl m =
        model_update meta childMeta tbl childTbl m) ∧
    (m.action = Action.create →
      deleteVerb meta childMeta tbl childTbl m =
        Except.error "cannot delete during create") ∧
    (m.action = Action.update →
      deleteVerb meta childMeta tbl childTbl m = model_delete meta tbl m) := by
  refine ⟨?_, ?_, ?_, ?_, ?_, ?_, ?_, ?_⟩
  · intro h
    simp [createVerb, h, actionName]
  · intro h
    cases hm : m.action with
    | create => simp [createVerb, hm]
    | retrieve => exact absurd hm h
    | update => simp [createVerb, hm]
  · intro h
    simp [retrieveVerb, h]
  · intro h
    simp [retrieveVerb, h]
  · intro h
    simp [updateVerb, h, actionName]
  · intro h
    cases hm : m.action with
    | create => exact absurd hm h
    | retrieve => simp [updateVerb, hm]
    | update => simp [updateVerb, hm]
  · intro h
    simp [deleteVerb, h, actionName]
  · intro h
    simp only [deleteVerb, h]
    rfl

/-- Witness for C3 as amended, at concrete instances in each action. -/
theorem c3_amended_witness :
    createVerb unitMeta unitMeta tblE tblE (Model.many unitMeta []) =
      Except.error "cannot create during retrieve" ∧
    updateVerb unitMeta unitMeta tblE tblE
        { mode := Mode.one, action := Action.create } =
      Except.error "cannot update during create" ∧
    deleteVerb unitMeta unitMeta tblE tblE
        { mode := Mode.one, action := Action.create } =
      Except.error "cannot delete during create" ∧
    retrieveVerb unitMeta unitMeta tblE tblE
        { mode := Mode.one, action := Action.create } true =
      Except.error "cannot retrieve during create" := by
  refine ⟨?_, ?_, ?_, ?_⟩
  · exact (c3_amended unitMeta unitMeta tblE tblE (Model.many unitMeta [])).1 rfl
  · exact (c3_amended unitMeta unitMeta tblE tblE
      { mode := Mode.one, action := Action.create }).2.2.2.2.1 rfl
  · exact (c3_amended unitMeta unitMeta tblE tblE
      { mode := Mode.one, action := Action.create }).2.2.2.2.2.2.1 rfl
  · exact (c3_amended unitMeta unitMeta tblE tblE
      { mode := Mode.one, action := Action.create }).2.2.1 (by decide)

/-! ### Claim C4 -/

/-- Claim C4, the failing input evaluated: creating a unit whose identity
value was supplied by the caller (id 5) on empty storage stores the raw row
under the counter key 1, not under the identity value 5 the row carries —
and the later update addressing the row by its identity value then fails
with KeyError instead of finding it. With the identity unset the key does
equal the auto assigned identity value. -/
theorem c4_storage_key :
    ((do
      let m0 ← initCreateOne unitMeta [] [] [("name", Value.vstr "x"), ("id", Value.vint 5)]
      let r ← createVerb unitMeta unitMeta tblE tblE m0
      Except.ok (r.1.data.map (fun kv => (kv.1, rowGet kv.2 "id")),
        (updateVerb unitMeta unitMeta r.1 r.1 r.2.2))) :
      Except String (List (Value × Option Value) ×
        Except String (Table × Table × Model × Nat))) =
      Except.ok ([(Value.vint 1, some (Value.vint 5))], Except.error "KeyError") ∧
    ((do
      let m0 ← initCreateOne unitMeta [] [] [("name", Value.vstr "x")]
      let r ← createVerb unitMeta unitMeta tblE tblE m0
      Except.ok (r.1.data.map (fun kv => (kv.1, rowGet kv.2 "id")))) :
      Except String (List (Value × Option Value))) =
      Except.ok [(Value.vint 1, some (Value.vint 1))] := by
  constructor
  · rfl
  · rfl

/-! ### Claim C9 -/

/-- Claim C9: with ten stored rows all matching, a many retrieve with limit
three yields exactly three sub instances and sets overflow true, while
limit twenty yields all ten with overflow false; in general, with overflow
not already set, model_limit slices the (already filtered and sorted)
collection from offset to offset plus limit and sets overflow exactly when
the sliced length reaches the limit. -/
theorem c9_pagination :
    ((retrieveVerb unitMeta unitMeta tbl10 tbl10
        (setLimit (Model.many unitMeta []) 3) true).toOption.join.map
      (fun m2 => ((m2.models.getD []).length, m2.overflow))) = some (3, true) ∧
    ((retrieveVerb unitMeta unitMeta tbl10 tbl10
        (setLimit (Model.many unitMeta []) 20) true).toOption.join.map
      (fun m2 => ((m2.models.getD []).length, m2.overflow))) = some (10, false) ∧
    (∀ (m : Model) (l : List Sub) (lim : Nat),
      m.models = some l → m.limit = some lim → m.overflow = false →
      (model_limit m).models = some ((l.drop m.offset).take lim) ∧
      ((model_limit m).overflow = true ↔ lim ≤ ((l.drop m.offset).take lim).length)) := by
  refine ⟨by decide, by decide, ?_⟩
  intro m l lim hml hlim hov
  simp [model_limit, hml, hlim, hov]

/-- Witness for C9 at a concrete paginated collection. -/
theorem c9_pagination_witness :
    (model_limit
      { mode := Mode.many, action := Action.update,
        models := some [⟨⟨[], Action.update⟩, Action.update, []⟩,
                        ⟨⟨[], Action.update⟩, Action.update, []⟩],
        limit := some 2, offset := 1 }).models =
      some [⟨⟨[], Action.update⟩, Action.update, []⟩] ∧
    ((model_limit
      { mode := Mode.many, action := Action.update,
        models := some [⟨⟨[], Action.update⟩, Action.update, []⟩,
                        ⟨⟨[], Action.update⟩, Action.update, []⟩],
        limit := some 2, offset := 1 }).overflow = true ↔ (2 : Nat) ≤ 1) := by
  have h := (c9_pagination).2.2
    { mode := Mode.many, action := Action.update,
      models := some [⟨⟨[], Action.update⟩, Action.update, []⟩,
                      ⟨⟨[], Action.update⟩, Action.update, []⟩],
      limit := some 2, offset := 1 }
    [⟨⟨[], Action.update⟩, Action.update, []⟩, ⟨⟨[], Action.update⟩, Action.update, []⟩]
    2 rfl rfl rfl
  exact h

theorem except_bind_ok {α β : Type} (a : α) (f : α → Except String β) :
    (Except.ok a : Except String α) >>= f = f a := rfl

theorem except_bind_error {α β : Type} (e : String) (f : α → Except String β) :
    (Except.error e : Except String α) >>= f = Except.error e := rfl

theorem except_bind_def {α β : Type} (x : Except String α) (f : α → Except String β) :
    x >>= f = match x with
      | Except.ok a => f a
      | Except.error e => Except.error e := by
  cases x with
  | ok a => rfl
  | error e => rfl

theorem model_retrieve_core_cases (meta childMeta : Meta) (tbl childTbl : Table)
    (m : Model) (verify : Bool) (res : Option Model)
    (h : model_retrieve meta childMeta tbl childTbl m verify = Except.ok res) :
    (res = none ∧ verify = false) ∨ (∃ m2, res = some m2 ∧ m2.action = Action.update) := by
  unfold model_retrieve at h
  cases hc : collate meta childMeta childTbl m with
  | error e =>
    rw [hc] at h
    rw [except_bind_error] at h
    cases h
  | ok m1 =>
    rw [hc] at h
    rw [except_bind_ok] at h
    cases hr : m1.record with
    | none =>
      rw [hr] at h
      simp only [except_bind_error, except_bind_ok] at h
      cases h
    | some r =>
      rw [hr] at h
      simp only [except_bind_error, except_bind_ok] at h
      generalize hL : List.filter (fun row => r.satisfy row)
        (List.map (fun kv => kv.2) tbl.data) = L at h
      by_cases h1 : m1.mode = Mode.one ∧ L.length > 1
      · rw [if_pos h1] at h
        cases h
      · rw [if_neg h1] at h
        by_cases h2 : m1.mode = Mode.one ∧ m1.role ≠ Role.child
        · rw [if_pos h2] at h
          cases hl : L with
          | nil =>
            rw [hl] at h
            cases hv : verify with
            | true =>
              rw [hv] at h
              simp at h
            | false =>
              rw [hv] at h
              simp at h
              exact Or.inl ⟨h.symm, rfl⟩
          | cons row tl =>
            rw [hl] at h
            injection h with h2
            exact Or.inr ⟨_, h2.symm, rfl⟩
        · rw [if_neg h2] at h
          injection h with h3
          refine Or.inr ⟨_, h3.symm, ?_⟩
          split
          · rw [model_limit_action]
            rfl
          · rfl

theorem model_retrieve_verified_not_none (meta childMeta : Meta) (tbl childTbl : Table)
    (m : Model) :
    model_retrieve meta childMeta tbl childTbl m true ≠ Except.ok none := by
  intro h
  rcases model_retrieve_core_cases meta childMeta tbl childTbl m true none h with
    ⟨_, hv⟩ | ⟨m2, hm2, _⟩
  · cases hv
  · cases hm2

theorem model_retrieve_ok_action (meta childMeta : Meta) (tbl childTbl : Table)
    (m : Model) (verify : Bool) (m2 : Model)
    (h : model_retrieve meta childMeta tbl childTbl m verify = Except.ok (some m2)) :
    m2.action = Action.update := by
  rcases model_retrieve_core_cases meta childMeta tbl childTbl m verify (some m2) h with
    ⟨hn, _⟩ | ⟨m3, hm3, ha⟩
  · cases hn
  · injection hm3 with h4
    rw [← h4] at ha
    exact ha

theorem model_delete_ok_action (meta : Meta) (tbl : Table) (m : Model)
    (out : Table × Model × Nat)
    (hact : m.action ≠ Action.retrieve)
    (h : model_delete meta tbl m = Except.ok out) :
    out.2.1.action = Action.create := by
  unfold model_delete at h
  rw [if_neg hact] at h
  split at h
  · split at h
    · split at h
      · rw [except_bind_def] at h
        split at h
        · injection h with h2
          rw [← h2]
        · cases h
      · injection h with h2
        rw [← h2]
    · split at h
      · rw [except_bind_def] at h
        split at h
        · injection h with h2
          rw [← h2]
        · cases h
      · injection h with h2
        rw [← h2]
  · cases h

theorem collate_unit (t : Table) (m : Model) :
    collate unitMeta unitMeta t m = Except.ok m := rfl

theorem satisfy_idquery (key : Value) (row : Row) :
    Record.satisfy ((Model.one unitMeta [("id", some key)]).record.getD
      ⟨[], Action.retrieve⟩) row = decide (rowGet row "id" = some key) := by
  simp [Model.one, filterKW, buildRecord, unitMeta, Record.satisfy, Field.satisfy,
    condHolds, Record.filterEq, applyDefaults]

theorem retrieve_by_id_unit (tbl2 : Table) (key : Value) (row : Row)
    (rest : List (Value × Row))
    (hdata : tbl2.data = rest ++ [(key, row)])
    (hrow : rowGet row "id" = some key)
    (hrest : ∀ kv ∈ rest, rowGet kv.2 "id" ≠ some key) :
    retrieveVerb unitMeta unitMeta tbl2 tbl2 (Model.one unitMeta [("id", some key)]) true =
      Except.ok (some
        { role := Role.model, mode := Mode.one, action := Action.update,
          record := some (buildRecord unitMeta Action.update true (some row) []),
          models := none, related := [], parentsCache := [], childrenCache := [],
          limit := none, offset := 0, overflow := false, bulk := false }) := by
  have hfil : (tbl2.data.map (fun kv => kv.2)).filter
      (fun r2 => Record.satisfy ((Model.one unitMeta [("id", some key)]).record.getD
        ⟨[], Action.retrieve⟩) r2) = [row] := by
    rw [hdata, List.map_append, List.filter_append]
    have h1 : (rest.map (fun kv => kv.2)).filter
        (fun r2 => Record.satisfy ((Model.one unitMeta [("id", some key)]).record.getD
          ⟨[], Action.retrieve⟩) r2) = [] := by
      rw [List.filter_eq_nil_iff]
      intro a ha
      rcases List.mem_map.mp ha with ⟨kv, hkv, hae⟩
      rw [satisfy_idquery]
      simp only [decide_eq_true_eq]
      rw [← hae]
      exact hrest kv hkv
    rw [h1]
    simp only [List.map_cons, List.map_nil, List.filter_cons, List.filter_nil]
    rw [satisfy_idquery]
    simp [hrow]
  unfold retrieveVerb model_retrieve
  rw [if_neg (by simp [Model.one, filterKW])]
  rw [collate_unit, except_bind_ok]
  simp only [Model.one, filterKW, Option.map_some', Option.getD_some, List.foldl_nil,
    except_bind_ok] at hfil ⊢
  rw [hfil]
  rw [if_neg (by simp)]
  rw [if_pos (by exact ⟨trivial, by intro hx; cases hx⟩)]

end Relations

namespace Relations


/-! ### Claim C6 -/

/-- Claim C6, counterexample: on the template id(int), a(int), b(dict),
c(str) with identity id, the default unique index the code derives is the mapping
keyed a-c over the fields a and c — it jumps over the non scalar field b —
while the first contiguous run of scalar fields up to and including the
first text field, identity excluded, is just a. The claimed derivation and
the code disagree. -/
theorem c6_counterexample :
    normalizeUnique IndexDecl.unset fields6 (some "id") = [("a-c", ["a", "c"])] ∧
    claimedContiguousDefault fields6 (some "id") = ["a"] ∧
    normalizeUnique IndexDecl.unset fields6 (some "id") ≠
      [(String.intercalate "-" (claimedContiguousDefault fields6 (some "id")),
        claimedContiguousDefault fields6 (some "id"))] := by
  refine ⟨by decide, by decide, ?_⟩
  decide

/-- Claim C6 as amended: when no unique index is declared, the default
unique index consists of the fields of kind int or str, in declared order,
excluding the identity field, truncated right after the first str field;
fields of any other kind are skipped without ending the scan (the run need
not be contiguous). -/
theorem c6_amended (fields : List Field) (id : Option String) :
    defaultUniqueScan fields id = amendedDefaultUnique fields id ∧
    normalizeUnique IndexDecl.unset fields id =
      [(String.intercalate "-" (amendedDefaultUnique fields id),
        amendedDefaultUnique fields id)] := by
  refine ⟨defaultUniqueScan_eq_amended id fields, ?_⟩
  unfold normalizeUnique
  rw [defaultUniqueScan_eq_amended id fields]

/-! ### Claim C10 -/

/-- Claim C10: index normalization is form agnostic — a single name string,
the one element list and the equivalent single entry mapping normalize to
the same canonical mapping; a multi name list and the mapping keyed by the
dash-joined names coincide; an explicitly empty declaration yields the
empty mapping (clearing the default) for the unique index, and the
secondary index never derives a default. -/
theorem c10_normalization (s : String) (l : List String)
    (d : List (String × List String)) (fields : List Field) (id : Option String)
    (hs : s ≠ "") (hl : l ≠ []) :
    normalizeUnique (IndexDecl.str s) fields id = normalizeUnique (IndexDecl.list [s]) fields id ∧
    normalizeUnique (IndexDecl.list [s]) fields id =
      normalizeUnique (IndexDecl.dict [(s, [s])]) fields id ∧
    normalizeUnique (IndexDecl.list l) fields id =
      normalizeUnique (IndexDecl.dict [(String.intercalate "-" l, l)]) fields id ∧
    normalizeUnique (IndexDecl.dict d) fields id = d ∧
    normalizeUnique (IndexDecl.list []) fields id = [] ∧
    normalizeUnique (IndexDecl.dict []) fields id = [] ∧
    normalizeIndex (IndexDecl.str s) = normalizeIndex (IndexDecl.list [s]) ∧
    normalizeIndex (IndexDecl.list l) =
      normalizeIndex (IndexDecl.dict [(String.intercalate "-" l, l)]) ∧
    normalizeIndex IndexDecl.unset = [] ∧
    normalizeIndex (IndexDecl.list []) = [] ∧
    normalizeIndex (IndexDecl.dict []) = [] := by
  have hll : l.isEmpty = false := by
    cases l with
    | nil => exact absurd rfl hl
    | cons a as => simp
  refine ⟨?_, ?_, ?_, rfl, rfl, rfl, ?_, ?_, rfl, rfl, ?_⟩
  · simp [normalizeUnique, hs, intercalate_singleton]
  · simp [normalizeUnique, intercalate_singleton]
  · simp [normalizeUnique, hll]
  · simp [normalizeIndex, hs, intercalate_singleton]
  · simp [normalizeIndex, hll]
  · rfl

/-- Witness for C10 at a concrete declaration. -/
theorem c10_normalization_witness :
    normalizeUnique (IndexDecl.str "name") [] none =
      normalizeUnique (IndexDecl.list ["name"]) [] none ∧
    normalizeUnique (IndexDecl.list ["a", "b"]) [] none =
      normalizeUnique (IndexDecl.dict [(String.intercalate "-" ["a", "b"], ["a", "b"])]) [] none ∧
    normalizeUnique (IndexDecl.list []) [] none = [] := by
  have h := c10_normalization "name" ["a", "b"] [] [] none (by decide) (by decide)
  exact ⟨h.1, h.2.2.1, h.2.2.2.2.1⟩

end Relations

namespace Relations

/-! ### Claim C2 -/

/-- Claim C2, counterexample: on storage with one matching row, a many mode
retrieve action instance successfully deletes the matching row (count one,
storage emptied), yet its action remains retrieve — and a second create()
call on the same object is rejected, not accepted. -/
theorem c2_counterexample :
    ((deleteVerb unitMeta unitMeta tbl1 tbl1
        (Model.many unitMeta [("name", some (Value.vstr "x"))])).toOption.map
      (fun out => (out.2.1.action, out.2.2, out.1.data.isEmpty))) =
      some (Action.retrieve, 1, true) ∧
    ((deleteVerb unitMeta unitMeta tbl1 tbl1
        (Model.many unitMeta [("name", some (Value.vstr "x"))])) >>=
      (fun out => createVerb unitMeta unitMeta out.1 out.1 out.2.1)) =
      Except.error "cannot create during retrieve" := by
  constructor
  · rfl
  · rfl

/-- Claim C2 as amended: after a successful delete(), an instance whose
action was update — and a mode one instance whose action was retrieve,
which the delete verb first resolves — transitions to create, and a second
create() call on it passes the state validation and delegates to the
source; a many mode retrieve action delete, by contrast, leaves the
instance in retrieve (see the counterexample). -/
theorem c2_amended (meta childMeta : Meta) (tbl childTbl : Table) (m : Model)
    (out : Table × Model × Nat)
    (hact : m.action = Action.update ∨ (m.action = Action.retrieve ∧ m.mode = Mode.one))
    (hdel : deleteVerb meta childMeta tbl childTbl m = Except.ok out) :
    out.2.1.action = Action.create ∧
    (∀ t c, createVerb meta childMeta t c out.2.1 = model_create meta childMeta t c out.2.1) := by
  have hca : out.2.1.action = Action.create := by
    unfold deleteVerb at hdel
    rcases hact with hu | ⟨hr, hm⟩
    · rw [if_neg (fun hcond => hcond (Or.inl hu))] at hdel
      rw [if_neg (by
        intro hcond
        rw [hu] at hcond
        exact absurd hcond.1 (by intro hx; cases hx))] at hdel
      rw [except_bind_ok] at hdel
      exact model_delete_ok_action meta tbl m out
        (by rw [hu]; intro hx; cases hx) hdel
    · rw [if_neg (fun hcond => hcond (Or.inr hr))] at hdel
      rw [if_pos ⟨hr, hm⟩] at hdel
      unfold retrieveVerb at hdel
      rw [if_neg (by rw [hr]; simp)] at hdel
      cases hg : model_retrieve meta childMeta tbl childTbl m true with
      | error e =>
        rw [hg] at hdel
        simp only [except_bind_error] at hdel
        cases hdel
      | ok ores =>
        cases ores with
        | none => exact absurd hg (model_retrieve_verified_not_none meta childMeta tbl childTbl m)
        | some m2 =>
          rw [hg] at hdel
          simp only [except_bind_ok] at hdel
          have ha2 : m2.action = Action.update :=
            model_retrieve_ok_action meta childMeta tbl childTbl m true m2 hg
          exact model_delete_ok_action meta tbl m2 out
            (by rw [ha2]; intro hx; cases hx) hdel
  refine ⟨hca, ?_⟩
  intro t c
  unfold createVerb
  rw [if_neg (by rw [hca]; simp)]

/-- Witness for C2 as amended: deleting a persisted unit (action update)
with identity value one flips it back to create and a second create call
delegates. -/
theorem c2_amended_witness :
    ({ mUpd1 with action := Action.create } : Model).action = Action.create ∧
    createVerb unitMeta unitMeta tblE tblE { mUpd1 with action := Action.create } =
      model_create unitMeta unitMeta tblE tblE { mUpd1 with action := Action.create } := by
  have h := c2_amended unitMeta unitMeta tbl1 tbl1 mUpd1
    ⟨{ ids := 1, data := [] }, { mUpd1 with action := Action.create }, 1⟩
    (Or.inl rfl) rfl
  exact ⟨h.1, h.2 tblE tblE⟩

/-! ### Claim C7 -/

/-- Claim C7: for a mode one retrieve on a non child instance, more than
one matching stored row raises the more-than-one-retrieved error; zero
matching rows raise the none-retrieved error when verify is true (the
default) and yield the empty result without error when verify is false; a
mode many retrieve of the same filter returns exactly one sub instance per
matching stored row. -/
theorem c7_cardinality (tbl : Table) (kw : List (String × Option Value)) :
    ∀ hits : List Row,
    hits = (tbl.data.map (fun kv => kv.2)).filter
        (fun row => Record.satisfy ((Model.one unitMeta kw).record.getD ⟨[], Action.retrieve⟩) row) →
    ((1 < hits.length → retrieveVerb unitMeta unitMeta tbl tbl (Model.one unitMeta kw) true =
        Except.error "more than one retrieved") ∧
     (hits = [] → retrieveVerb unitMeta unitMeta tbl tbl (Model.one unitMeta kw) true =
        Except.error "none retrieved") ∧
     (hits = [] → retrieveVerb unitMeta unitMeta tbl tbl (Model.one unitMeta kw) false =
        Except.ok none) ∧
     ((retrieveVerb unitMeta unitMeta tbl tbl (Model.many unitMeta kw) true).toOption.join.map
        (fun m2 => (m2.models.getD []).length) = some hits.length)) := by
  intro hits hh
  refine ⟨?_, ?_, ?_, ?_⟩
  · intro h1
    rw [hh] at h1
    unfold retrieveVerb model_retrieve
    rw [collate_unit, except_bind_ok]
    simp only [Model.one, filterKW, Option.map_some', Option.getD_some, true_and,
      List.foldl_nil, except_bind_ok] at h1 ⊢
    rw [if_neg (by simp)]
    rw [if_pos h1]
  · intro h1
    rw [hh] at h1
    unfold retrieveVerb model_retrieve
    rw [collate_unit, except_bind_ok]
    simp only [Model.one, filterKW, Option.map_some', Option.getD_some, true_and,
      List.foldl_nil, except_bind_ok] at h1 ⊢
    rw [if_neg (by simp)]
    rw [if_neg (by rw [h1]; simp)]
    rw [if_pos (by intro hx; cases hx)]
    rw [h1]
    rfl
  · intro h1
    rw [hh] at h1
    unfold retrieveVerb model_retrieve
    rw [collate_unit, except_bind_ok]
    simp only [Model.one, filterKW, Option.map_some', Option.getD_some, true_and,
      List.foldl_nil, except_bind_ok] at h1 ⊢
    rw [if_neg (by simp)]
    rw [if_neg (by rw [h1]; simp)]
    rw [if_pos (by intro hx; cases hx)]
    rw [h1]
    rfl
  · rw [hh]
    unfold retrieveVerb model_retrieve
    rw [if_neg (by simp [Model.many, filterKW])]
    rw [collate_unit, except_bind_ok]
    simp only [Model.many, Model.one, filterKW, Option.map_some', Option.getD_some,
      List.foldl_nil, except_bind_ok]
    rw [if_neg (by intro hx; cases hx.1)]
    rw [if_neg (by intro hx; cases hx.1)]
    simp [model_limit, model_sort, List.length_map, Except.toOption]

/-- Witness for C7 at the ten row table. -/
theorem c7_cardinality_witness :
    retrieveVerb unitMeta unitMeta tbl10 tbl10
      (Model.one unitMeta [("name", some (Value.vstr "x"))]) true =
        Except.error "more than one retrieved" ∧
    retrieveVerb unitMeta unitMeta tbl10 tbl10
      (Model.one unitMeta [("name", some (Value.vstr "q"))]) true =
        Except.error "none retrieved" ∧
    retrieveVerb unitMeta unitMeta tbl10 tbl10
      (Model.one unitMeta [("name", some (Value.vstr "q"))]) false = Except.ok none ∧
    (retrieveVerb unitMeta unitMeta tbl10 tbl10
      (Model.many unitMeta [("name", some (Value.vstr "x"))]) true).toOption.join.map
        (fun m2 => (m2.models.getD []).length) = some 10 := by
  have h1 := c7_cardinality tbl10 [("name", some (Value.vstr "x"))] _ rfl
  have h2 := c7_cardinality tbl10 [("name", some (Value.vstr "q"))] _ rfl
  refine ⟨h1.1 (by decide), h2.2.1 (by decide), h2.2.2.1 (by decide), ?_⟩
  rw [h1.2.2.2]
  rfl

/-! ### Claim C8 -/

/-- Claim C8: round trip — building a unit entity from a set of field
values, persisting it with create(), then retrieving it by its identity
value returns a record whose field values equal the originals after backend
side default substitution: the auto assigned identity comes back, provided
values come back unchanged, and an omitted field comes back as its declared
default (size 7). The storage hypotheses say the about-to-be-assigned
identity value is fresh, which holds of any storage the backend built
itself. -/
theorem c8_roundtrip (tbl : Table) (s : String) (z : Int)
    (hkey : ∀ kv ∈ tbl.data, kv.1 ≠ Value.vint (tbl.ids + 1))
    (hid : ∀ kv ∈ tbl.data, rowGet kv.2 "id" ≠ some (Value.vint (tbl.ids + 1))) :
    ((createThenRetrieveById tbl [("name", Value.vstr s), ("size", Value.vint z)]).toOption.join.map
      (fun m2 => m2.record.map (fun r => (r.getValue "id", r.getValue "name", r.getValue "size"))))
      = some (some (some (Value.vint (tbl.ids + 1)), some (Value.vstr s), some (Value.vint z)))
    ∧ ((createThenRetrieveById tbl [("name", Value.vstr s)]).toOption.join.map
      (fun m2 => m2.record.map (fun r => (r.getValue "id", r.getValue "name", r.getValue "size"))))
      = some (some (some (Value.vint (tbl.ids + 1)), some (Value.vstr s), some (Value.vint 7))) := by
  have hany : tbl.data.any (fun kv => kv.1 = Value.vint (tbl.ids + 1)) = false := by
    rw [List.any_eq_false]
    intro kv hkv
    simp only [decide_eq_true_eq]
    exact hkey kv hkv
  have hstore : ∀ row : Row, dataStore tbl.data (Value.vint (tbl.ids + 1)) row =
      tbl.data ++ [(Value.vint (tbl.ids + 1), row)] := by
    intro row
    unfold dataStore
    rw [if_neg (by rw [hany]; exact Bool.false_ne_true)]
  constructor
  · unfold createThenRetrieveById
    rw [show initCreateOne unitMeta [] [] [("name", Value.vstr s), ("size", Value.vint z)] =
      Except.ok
        { role := Role.model, mode := Mode.one, action := Action.create,
          record := some
            { order :=
                [ { name := "id", kind := Kind.kint, value := none, default := none,
                    readonly := true, changed := false, replace := false, criteria := [] },
                  { name := "name", kind := Kind.kstr, value := some (Value.vstr s),
                    default := none, readonly := false, changed := true, replace := false,
                    criteria := [] },
                  { name := "size", kind := Kind.kint, value := some (Value.vint z),
                    default := some (Value.vint 7), readonly := false, changed := true,
                    replace := false, criteria := [] } ],
              action := Action.create },
          models := none, related := [], parentsCache := [], childrenCache := [],
          limit := none, offset := 0, overflow := false, bulk := false } from rfl]
    rw [except_bind_ok]
    rw [show (createVerb unitMeta unitMeta tbl tbl
        { role := Role.model, mode := Mode.one, action := Action.create,
          record := some
            { order :=
                [ { name := "id", kind := Kind.kint, value := none, default := none,
                    readonly := true, changed := false, replace := false, criteria := [] },
                  { name := "name", kind := Kind.kstr, value := some (Value.vstr s),
                    default := none, readonly := false, changed := true, replace := false,
                    criteria := [] },
                  { name := "size", kind := Kind.kint, value := some (Value.vint z),
                    default := some (Value.vint 7), readonly := false, changed := true,
                    replace := false, criteria := [] } ],
              action := Action.create },
          models := none, related := [], parentsCache := [], childrenCache := [],
          limit := none, offset := 0, overflow := false, bulk := false } : Except String (Table × Table × Model)) =
      Except.ok
        ({ ids := tbl.ids + 1,
           data := dataStore tbl.data (Value.vint (tbl.ids + 1))
             [("id", some (Value.vint (tbl.ids + 1))), ("name", some (Value.vstr s)),
              ("size", some (Value.vint z))] }, tbl,
         { role := Role.model, mode := Mode.one, action := Action.update,
           record := some
             { order :=
                 [ { name := "id", kind := Kind.kint, value := some (Value.vint (tbl.ids + 1)),
                     default := none, readonly := true, changed := true, replace := false,
                     criteria := [] },
                   { name := "name", kind := Kind.kstr, value := some (Value.vstr s),
                     default := none, readonly := false, changed := true, replace := false,
                     criteria := [] },
                   { name := "size", kind := Kind.kint, value := some (Value.vint z),
                     default := some (Value.vint 7), readonly := false, changed := true,
                     replace := false, criteria := [] } ],
               action := Action.update },
           models := none, related := [], parentsCache := [], childrenCache := [],
           limit := none, offset := 0, overflow := false, bulk := false }) from rfl]
    rw [except_bind_ok]
    rw [hstore]
    rw [retrieve_by_id_unit _ (Value.vint (tbl.ids + 1))
      [("id", some (Value.vint (tbl.ids + 1))), ("name", some (Value.vstr s)),
       ("size", some (Value.vint z))] tbl.data rfl rfl hid]
    rfl
  · unfold createThenRetrieveById
    rw [show initCreateOne unitMeta [] [] [("name", Value.vstr s)] =
      Except.ok
        { role := Role.model, mode := Mode.one, action := Action.create,
          record := some
            { order :=
                [ { name := "id", kind := Kind.kint, value := none, default := none,
                    readonly := true, changed := false, replace := false, criteria := [] },
                  { name := "name", kind := Kind.kstr, value := some (Value.vstr s),
                    default := none, readonly := false, changed := true, replace := false,
                    criteria := [] },
                  { name := "size", kind := Kind.kint, value := some (Value.vint 7),
                    default := some (Value.vint 7), readonly := false, changed := true,
                    replace := false, criteria := [] } ],
              action := Action.create },
          models := none, related := [], parentsCache := [], childrenCache := [],
          limit := none, offset := 0, overflow := false, bulk := false } from rfl]
    rw [except_bind_ok]
    rw [show (createVerb unitMeta unitMeta tbl tbl
        { role := Role.model, mode := Mode.one, action := Action.create,
          record := some
            { order :=
                [ { name := "id", kind := Kind.kint, value := none, default := none,
                    readonly := true, changed := false, replace := false, criteria := [] },
                  { name := "name", kind := Kind.kstr, value := some (Value.vstr s),
                    default := none, readonly := false, changed := true, replace := false,
                    criteria := [] },
                  { name := "size", kind := Kind.kint, value := some (Value.vint 7),
                    default := some (Value.vint 7), readonly := false, changed := true,
                    replace := false, criteria := [] } ],
              action := Action.create },
          models := none, related := [], parentsCache := [], childrenCache := [],
          limit := none, offset := 0, overflow := false, bulk := false } : Except String (Table × Table × Model)) =
      Except.ok
        ({ ids := tbl.ids + 1,
           data := dataStore tbl.data (Value.vint (tbl.ids + 1))
             [("id", some (Value.vint (tbl.ids + 1))), ("name", some (Value.vstr s)),
              ("size", some (Value.vint 7))] }, tbl,
         { role := Role.model, mode := Mode.one, action := Action.update,
           record := some
             { order :=
                 [ { name := "id", kind := Kind.kint, value := some (Value.vint (tbl.ids + 1)),
                     default := none, readonly := true, changed := true, replace := false,
                     criteria := [] },
                   { name := "name", kind := Kind.kstr, value := some (Value.vstr s),
                     default := none, readonly := false, changed := true, replace := false,
                     criteria := [] },
                   { name := "size", kind := Kind.kint, value := some (Value.vint 7),
                     default := some (Value.vint 7), readonly := false, changed := true,
                     replace := false, criteria := [] } ],
               action := Action.update },
           models := none, related := [], parentsCache := [], childrenCache := [],
           limit := none, offset := 0, overflow := false, bulk := false }) from rfl]
    rw [except_bind_ok]
    rw [hstore]
    rw [retrieve_by_id_unit _ (Value.vint (tbl.ids + 1))
      [("id", some (Value.vint (tbl.ids + 1))), ("name", some (Value.vstr s)),
       ("size", some (Value.vint 7))] tbl.data rfl rfl hid]
    rfl

/-- Witness for C8 on empty storage with name y and size nine. -/
theorem c8_roundtrip_witness :
    ((createThenRetrieveById tblE [("name", Value.vstr "y"), ("size", Value.vint 9)]).toOption.join.map
      (fun m2 => m2.record.map (fun r => (r.getValue "id", r.getValue "name", r.getValue "size"))))
      = some (some (some (Value.vint 1), some (Value.vstr "y"), some (Value.vint 9))) := by
  have h := c8_roundtrip tblE "y" 9 (by intro kv hkv; cases hkv) (by intro kv hkv; cases hkv)
  exact h.1

/-! ### Claim C1 -/

/-- Claim C1: on a retrieve action instance, staging field assignments
with set() marks the underlying criteria record with update intent (and
field access through _ensure is then blocked as needing the update); a
subsequent update() call applies exactly the staged changed field values to
every stored row matching the filter, returning the matched count; after
the update call the instance is back in the retrieve state — its action is
retrieve, the staged update intent on the record is cleared (the
spec-modelled record_update flush), and _ensure delegates to a retrieve
again instead of raising. -/
theorem c1_deferred_update (tbl : Table) (k : Int) (s : String) :
    setVerb unitMeta unitMeta tbl tbl
        (Model.many unitMeta [("size", some (Value.vint k))]) []
        [("name", Value.vstr s)] = Except.ok (c1Staged k s) ∧
    (c1Staged k s).record.map Record.action = some Action.update ∧
    ensure unitMeta unitMeta tbl tbl (c1Staged k s) = Except.error "need to update" ∧
    updateVerb unitMeta unitMeta tbl tbl (c1Staged k s) =
      Except.ok (⟨tbl.ids, tbl.data.map (fun kv =>
          if rowGet kv.2 "size" = some (Value.vint k) then
            (kv.1, rowMerge kv.2 [("name", some (Value.vstr s))])
          else kv)⟩, tbl, c1Flushed k s,
        (tbl.data.filter (fun kv => rowGet kv.2 "size" = some (Value.vint k))).length) ∧
    (c1Flushed k s).action = Action.retrieve ∧
    (c1Flushed k s).record.map Record.action = some Action.retrieve ∧
    (∀ t c : Table, (ensure unitMeta unitMeta t c (c1Flushed k s)).isOk = true) := by
  have hsat : ∀ row : Row,
      Record.satisfy ((c1Flushed k s).record.getD ⟨[], Action.retrieve⟩) row =
        decide (rowGet row "size" = some (Value.vint k)) := by
    intro row
    simp [c1Flushed, Record.satisfy, Field.satisfy, condHolds]
  refine ⟨rfl, rfl, rfl, ?_, rfl, rfl, fun t c => rfl⟩
  have hLHS : updateVerb unitMeta unitMeta tbl tbl (c1Staged k s) =
      Except.ok (⟨tbl.ids, tbl.data.map (fun kv =>
          if Record.satisfy ((c1Flushed k s).record.getD ⟨[], Action.retrieve⟩) kv.2 then
            (kv.1, rowMerge kv.2 [("name", some (Value.vstr s))])
          else kv)⟩, tbl, c1Flushed k s,
        (tbl.data.filter (fun kv =>
          Record.satisfy ((c1Flushed k s).record.getD ⟨[], Action.retrieve⟩) kv.2)).length) := rfl
  rw [hLHS]
  have h1 : tbl.data.map (fun kv =>
      if Record.satisfy ((c1Flushed k s).record.getD ⟨[], Action.retrieve⟩) kv.2 then
        (kv.1, rowMerge kv.2 [("name", some (Value.vstr s))])
      else kv) = tbl.data.map (fun kv =>
      if rowGet kv.2 "size" = some (Value.vint k) then
        (kv.1, rowMerge kv.2 [("name", some (Value.vstr s))])
      else kv) := by
    apply List.map_congr_left
    intro kv _
    rw [hsat kv.2]
    simp
  have h2 : tbl.data.filter (fun kv =>
      Record.satisfy ((c1Flushed k s).record.getD ⟨[], Action.retrieve⟩) kv.2) =
      tbl.data.filter (fun kv => decide (rowGet kv.2 "size" = some (Value.vint k))) := by
    apply List.filter_congr
    intro kv _
    rw [hsat kv.2]
  rw [h1, h2]

/-! ### Claim C5 -/

/-- Claim C5 as amended: writing a field value on a mode one instance,
beyond storing it, (a) updates the inherited related snapshot when the
field was inherited from an owning relation, and (b) drops the cached
parent handle of every parent relation whose foreign key is the written
field; (c) for every child relation whose local key is the written field,
the child handle is resolved through _relate — a handle is built and cached
when none is cached — and the new value is pushed into the resolved
copy of the foreign key held by the resolved handle whenever it is non empty (here: a
cached non empty many mode handle receives the broadcast push). -/
theorem c5_propagation (tbl ct : Table) (rec recU : Record) (w v : Option Value)
    (pcache : List (String × Option (List (Option Value))))
    (hrel : List (String × Option Value)) (s : Sub) (ss : List Sub) :
    (setattrField testMeta5 unitMeta5 tbl ct
        { mode := Mode.one, action := Action.update, record := some rec,
          related := [("unit_id", w)], parentsCache := pcache } "unit_id" v =
      Except.ok
        { mode := Mode.one, action := Action.update, record := some (rec.set "unit_id" v),
          related := [("unit_id", v)], parentsCache := cacheSet pcache "unit" none }) ∧
    (setattrField unitMeta5 testMeta5 tbl ct
        { mode := Mode.one, action := Action.update, record := some recU,
          childrenCache := [("tests", some
            { role := Role.child, mode := Mode.many, action := Action.update,
              record := none, models := some (s :: ss), related := hrel })] } "id" v =
      Except.ok
        { mode := Mode.one, action := Action.update, record := some (recU.set "id" v),
          childrenCache := [("tests", some
            { role := Role.child, mode := Mode.many, action := Action.update,
              record := none,
              models := some ((s :: ss).map (fun s2 => subSetItem testMeta5 s2 "unit_id" v)),
              related := hrel })] }) := by
  constructor
  · rfl
  · rfl

/-- Claim C5, counterexample: the claim says the push happens only when a
child handle is already cached. Here no child handle is cached (the cache
lookup yields none), yet writing the parent key resolves and caches a brand
new handle — retrieving the child rows of another parent from storage — and
pushes the new value into it: afterwards the cache holds a handle whose sub
instance carries the pushed foreign key value with its change flag set. -/
theorem c5_counterexample :
    childCached m50.childrenCache "tests" = none ∧
    ((setattrField unitMeta5 testMeta5 tblE ct0 m50 "id" (some (Value.vint 2))).toOption.map
      (fun m2 => ((childCached m2.childrenCache "tests").isSome,
        (childCached m2.childrenCache "tests").bind (fun h => h.models.map (fun l =>
          l.map (fun sb => (sb.record.getValue "unit_id",
            (sb.record.order.find? (fun f => f.name = "unit_id")).map
              (fun f => f.changed)))))))) =
      some (true, some [(some (Value.vint 2), some true)]) := by
  constructor
  · rfl
  · rfl


end Relations
